import Mathlib

/-!
Verification of the 10-year term & reversion cash flow tool (`src/app.py`).

The core computation (lines 53-86 of `app.py`) is embedded shallowly:
calendar dates become a `Date` structure with a proleptic-Gregorian ordinal
(`Date.toOrdinal`, the day-count model of `pd.Timestamp` comparison and
subtraction), monetary amounts and the escalation percentage become `ℚ`,
and Python's `round(x, 2)` becomes `round2` (round to an integer number of
hundredths).  `cashflowCell` mirrors the body of the per-year loop,
`cashflowRow` the per-tenant loop, `cashflowGrid` the outer loop plus the
tenant column, and `years` the `range(valuation_year, valuation_year + 10)`
horizon.
-/

namespace TermReversion

/-- A calendar date, as carried by the `Lease Start` / `Lease End` columns. -/
structure Date where
  year : ℤ
  month : ℕ
  day : ℕ
deriving DecidableEq, Repr

/-- Gregorian leap-year test, the rule `pd.Timestamp` implements. -/
def isLeap (y : ℤ) : Prop := (y % 4 = 0 ∧ y % 100 ≠ 0) ∨ y % 400 = 0

instance isLeap_decidable : DecidablePred isLeap := fun y => by
  unfold isLeap; infer_instance

/-- Days in the months strictly before month `m` of a common year. -/
def monthOffset : ℕ → ℤ
  | 1 => 0
  | 2 => 31
  | 3 => 59
  | 4 => 90
  | 5 => 120
  | 6 => 151
  | 7 => 181
  | 8 => 212
  | 9 => 243
  | 10 => 273
  | 11 => 304
  | 12 => 334
  | _ => 0

/-- One-based day of the year of a date (leap day adjustment after February). -/
def Date.dayOfYear (d : Date) : ℤ :=
  monthOffset d.month + d.day + (if 2 < d.month ∧ isLeap d.year then 1 else 0)

/-- Leap years strictly before year `y` in the proleptic Gregorian calendar. -/
def leapsBefore (y : ℤ) : ℤ :=
  (y - 1) / 4 - (y - 1) / 100 + (y - 1) / 400

/-- Proleptic-Gregorian day number (0001-01-01 is day 1).  Comparison and
subtraction of `pd.Timestamp`s in `app.py` is comparison and subtraction of
these ordinals. -/
def Date.toOrdinal (d : Date) : ℤ :=
  365 * (d.year - 1) + leapsBefore d.year + d.dayOfYear

/-- One input row of the lease table (`Tenant`, `Lease Start`, `Lease End`,
`Passing Rent (AED/year)`, `Market Rent (AED/year)`). -/
structure LeaseRecord where
  tenant : String
  leaseStart : Date
  leaseEnd : Date
  passingRent : ℚ
  marketRent : ℚ

/-- Python's `round(x, 2)`: round to a whole number of hundredths. -/
def round2 (x : ℚ) : ℚ := (round (100 * x) : ℤ) / 100

/-- `years = list(range(valuation_year, valuation_year + 10))` (app.py line 54). -/
def years (valuationYear : ℤ) : List ℤ :=
  (List.range 10).map fun i => valuationYear + i

/-- Ordinal of `pd.Timestamp(f"{year}-01-01")` (app.py line 61). -/
def startOfYearOrd (y : ℤ) : ℤ := (Date.mk y 1 1).toOrdinal

/-- Ordinal of `pd.Timestamp(f"{year}-12-31")` (app.py line 62). -/
def endOfYearOrd (y : ℤ) : ℤ := (Date.mk y 12 31).toOrdinal

/-- `days_in_year = (end_of_year - start_of_year).days + 1` (app.py line 66). -/
def daysInYear (y : ℤ) : ℤ := endOfYearOrd y - startOfYearOrd y + 1

/-- Body of the inner loop of `cashflow_matrix` (app.py lines 60-82): the cell
for one lease and the projection year `year` at zero-based offset `i`.
`escalationPercent` is the UI percentage; the code uses the rate
`escalationPercent / 100`. -/
def cashflowCell (rec : LeaseRecord) (escalationPercent : ℚ) (year : ℤ) (i : ℕ) : ℚ :=
  if rec.leaseEnd.toOrdinal < startOfYearOrd year then
    round2 (rec.marketRent * (1 + escalationPercent / 100) ^ i)
  else if rec.leaseStart.toOrdinal > endOfYearOrd year then 0
  else
    let periodStart := max (startOfYearOrd year) rec.leaseStart.toOrdinal
    let periodEnd := min (endOfYearOrd year) rec.leaseEnd.toOrdinal
    let daysCovered := periodEnd - periodStart + 1
    round2 (rec.passingRent * (1 + escalationPercent / 100) ^ i *
      ((daysCovered : ℚ) / (daysInYear year : ℚ)))

/-- One tenant's row of `cashflow_matrix`: the cell for `years[i]` at each
offset `i` (app.py lines 59-82). -/
def cashflowRow (rec : LeaseRecord) (escalationPercent : ℚ) (valuationYear : ℤ) : List ℚ :=
  (List.range 10).map fun (i : ℕ) => cashflowCell rec escalationPercent (valuationYear + (i : ℤ)) i

/-- `cashflow_df`: one output row per lease record, tenant identifier first,
then the ten year columns (app.py lines 57-86). -/
def cashflowGrid (records : List LeaseRecord) (escalationPercent : ℚ)
    (valuationYear : ℤ) : List (String × List ℚ) :=
  records.map fun rec => (rec.tenant, cashflowRow rec escalationPercent valuationYear)

/-- The three mutually exclusive classifications of a projection year for a
lease, in the priority order of app.py lines 68-74. -/
inductive Regime where
  | reversion
  | preterm
  | interm
deriving DecidableEq, Repr

/-- Which branch of the classification a given year falls into. -/
def regime (rec : LeaseRecord) (year : ℤ) : Regime :=
  if rec.leaseEnd.toOrdinal < startOfYearOrd year then .reversion
  else if rec.leaseStart.toOrdinal > endOfYearOrd year then .preterm
  else .interm

/-- Coverage fraction `days_covered / days_in_year` of a year, as computed in
the in-term branch. -/
def covFrac (rec : LeaseRecord) (year : ℤ) : ℚ :=
  ((min (endOfYearOrd year) rec.leaseEnd.toOrdinal -
    max (startOfYearOrd year) rec.leaseStart.toOrdinal + 1 : ℤ) : ℚ) /
  ((daysInYear year : ℤ) : ℚ)

/-! ### Helper lemmas about the calendar model -/

lemma daysInYear_eq (y : ℤ) : daysInYear y = if isLeap y then 366 else 365 := by
  by_cases h : isLeap y <;>
    simp [daysInYear, endOfYearOrd, startOfYearOrd, Date.toOrdinal, Date.dayOfYear,
      monthOffset, h]

lemma daysInYear_pos (y : ℤ) : 0 < daysInYear y := by
  rw [daysInYear_eq]; split <;> norm_num

lemma startOfYearOrd_le_endOfYearOrd (y : ℤ) : startOfYearOrd y ≤ endOfYearOrd y := by
  have h := daysInYear_eq y
  unfold daysInYear at h
  split at h <;> omega

lemma startOfYearOrd_lt_succ (y : ℤ) : startOfYearOrd y < startOfYearOrd (y + 1) := by
  simp only [startOfYearOrd, Date.toOrdinal, Date.dayOfYear, monthOffset, leapsBefore]
  norm_num
  omega

lemma startOfYearOrd_mono {y z : ℤ} (h : y ≤ z) : startOfYearOrd y ≤ startOfYearOrd z := by
  simp only [startOfYearOrd, Date.toOrdinal, Date.dayOfYear, monthOffset, leapsBefore]
  norm_num
  omega

/-! ### Helper lemmas about rounding and the cell computation -/

lemma round2_mono {x y : ℚ} (h : x ≤ y) : round2 x ≤ round2 y := by
  unfold round2
  have hr : round (100 * x) ≤ round (100 * y) := by
    rw [round_eq, round_eq]; exact Int.floor_mono (by linarith)
  have : ((round (100 * x) : ℤ) : ℚ) ≤ ((round (100 * y) : ℤ) : ℚ) := by exact_mod_cast hr
  linarith

lemma cashflowCell_reversion {rec : LeaseRecord} {p : ℚ} {year : ℤ} {i : ℕ}
    (h : rec.leaseEnd.toOrdinal < startOfYearOrd year) :
    cashflowCell rec p year i = round2 (rec.marketRent * (1 + p / 100) ^ i) := by
  simp [cashflowCell, h]

lemma cashflowCell_preterm {rec : LeaseRecord} {p : ℚ} {year : ℤ} {i : ℕ}
    (h1 : ¬ rec.leaseEnd.toOrdinal < startOfYearOrd year)
    (h2 : rec.leaseStart.toOrdinal > endOfYearOrd year) :
    cashflowCell rec p year i = 0 := by
  simp [cashflowCell, h1, h2]

lemma cashflowCell_interm {rec : LeaseRecord} {p : ℚ} {year : ℤ} {i : ℕ}
    (h1 : ¬ rec.leaseEnd.toOrdinal < startOfYearOrd year)
    (h2 : ¬ rec.leaseStart.toOrdinal > endOfYearOrd year) :
    cashflowCell rec p year i =
      round2 (rec.passingRent * (1 + p / 100) ^ i * covFrac rec year) := by
  unfold cashflowCell
  rw [if_neg h1, if_neg h2]
  rfl

lemma regime_reversion_iff {rec : LeaseRecord} {year : ℤ} :
    regime rec year = .reversion ↔ rec.leaseEnd.toOrdinal < startOfYearOrd year := by
  unfold regime
  by_cases h1 : rec.leaseEnd.toOrdinal < startOfYearOrd year
  · simp [h1]
  · by_cases h2 : rec.leaseStart.toOrdinal > endOfYearOrd year <;> simp [h1, h2]

lemma regime_preterm_iff {rec : LeaseRecord} {year : ℤ} :
    regime rec year = .preterm ↔
      ¬ rec.leaseEnd.toOrdinal < startOfYearOrd year ∧
      rec.leaseStart.toOrdinal > endOfYearOrd year := by
  unfold regime
  by_cases h1 : rec.leaseEnd.toOrdinal < startOfYearOrd year
  · simp [h1]
  · by_cases h2 : rec.leaseStart.toOrdinal > endOfYearOrd year <;> simp [h1, h2]

lemma regime_interm_iff {rec : LeaseRecord} {year : ℤ} :
    regime rec year = .interm ↔
      ¬ rec.leaseEnd.toOrdinal < startOfYearOrd year ∧
      ¬ rec.leaseStart.toOrdinal > endOfYearOrd year := by
  unfold regime
  by_cases h1 : rec.leaseEnd.toOrdinal < startOfYearOrd year
  · simp [h1]
  · by_cases h2 : rec.leaseStart.toOrdinal > endOfYearOrd year <;> simp [h1, h2]

lemma interm_daysCovered_bounds {rec : LeaseRecord} {year : ℤ}
    (hls : rec.leaseStart.toOrdinal ≤ rec.leaseEnd.toOrdinal)
    (h1 : ¬ rec.leaseEnd.toOrdinal < startOfYearOrd year)
    (h2 : ¬ rec.leaseStart.toOrdinal > endOfYearOrd year) :
    1 ≤ min (endOfYearOrd year) rec.leaseEnd.toOrdinal -
        max (startOfYearOrd year) rec.leaseStart.toOrdinal + 1 ∧
    min (endOfYearOrd year) rec.leaseEnd.toOrdinal -
        max (startOfYearOrd year) rec.leaseStart.toOrdinal + 1 ≤ daysInYear year := by
  have hse := startOfYearOrd_le_endOfYearOrd year
  unfold daysInYear
  omega

lemma interm_covFrac_pos {rec : LeaseRecord} {year : ℤ}
    (hls : rec.leaseStart.toOrdinal ≤ rec.leaseEnd.toOrdinal)
    (h1 : ¬ rec.leaseEnd.toOrdinal < startOfYearOrd year)
    (h2 : ¬ rec.leaseStart.toOrdinal > endOfYearOrd year) :
    0 < covFrac rec year := by
  have hd := interm_daysCovered_bounds hls h1 h2
  have hp := daysInYear_pos year
  unfold covFrac
  apply div_pos
  · exact_mod_cast by omega
  · exact_mod_cast hp

lemma interm_covFrac_le_one {rec : LeaseRecord} {year : ℤ}
    (hls : rec.leaseStart.toOrdinal ≤ rec.leaseEnd.toOrdinal)
    (h1 : ¬ rec.leaseEnd.toOrdinal < startOfYearOrd year)
    (h2 : ¬ rec.leaseStart.toOrdinal > endOfYearOrd year) :
    covFrac rec year ≤ 1 := by
  have hd := interm_daysCovered_bounds hls h1 h2
  have hp := daysInYear_pos year
  unfold covFrac
  rw [div_le_one (by exact_mod_cast hp)]
  exact_mod_cast hd.2

lemma years_eq (v : ℤ) :
    years v = [v, v + 1, v + 2, v + 3, v + 4, v + 5, v + 6, v + 7, v + 8, v + 9] := by
  unfold years
  norm_num [List.range_succ]

lemma years_chain (v : ℤ) : List.Chain' (· < ·) (years v) := by
  rw [years_eq]
  simp only [List.chain'_cons, List.chain'_singleton, and_true]
  omega

/-! ### Claims -/

/-- C4: for every valuation date with year `V`, the horizon is exactly
`[V, V+1, ..., V+9]`: length 10, strictly increasing, consecutive, starting at
the valuation year; only the year component of the date enters and the
operation is total (`years` is a total function of the year). -/
theorem C4_horizon_years (v : ℤ) :
    years v = [v, v + 1, v + 2, v + 3, v + 4, v + 5, v + 6, v + 7, v + 8, v + 9] ∧
    (years v).length = 10 ∧
    (years v).head? = some v ∧
    List.Chain' (· < ·) (years v) := by
  refine ⟨years_eq v, ?_, ?_, years_chain v⟩ <;> rw [years_eq]  <;> rfl

/-- C5: for every input table, the output grid has one row per input row, each
row carries exactly 10 year cells, the tenant identifiers pass through
unchanged in input order as the first component, and the year columns are in
chronological (strictly increasing) order. -/
theorem C5_grid_shape (records : List LeaseRecord) (p : ℚ) (vy : ℤ) :
    (cashflowGrid records p vy).length = records.length ∧
    (cashflowGrid records p vy).map Prod.fst = records.map LeaseRecord.tenant ∧
    (∀ pr ∈ cashflowGrid records p vy, pr.2.length = 10) ∧
    (years vy).length = 10 ∧
    List.Chain' (· < ·) (years vy) := by
  refine ⟨?_, ?_, ?_, ?_, years_chain vy⟩
  · simp [cashflowGrid]
  · simp [cashflowGrid]
  · intro pr hpr
    simp only [cashflowGrid, List.mem_map] at hpr
    obtain ⟨r, hr, rfl⟩ := hpr
    simp [cashflowRow]
  · rw [years_eq]; rfl

/-- C1: for every lease record and projection year at offset `i` whose Jan 1
is strictly after the lease end, the cell is
`round(market_rent * (1 + escalation_rate) ** i, 2)` — escalation compounded
from the valuation date (exponent `i`), not from the date of reversion. -/
theorem C1_reversion_cell (rec : LeaseRecord) (p : ℚ) (vy : ℤ) (i : ℕ)
    (hi : i < 10)
    (h : rec.leaseEnd.toOrdinal < startOfYearOrd (vy + (i : ℤ))) :
    cashflowCell rec p (vy + (i : ℤ)) i =
      round2 (rec.marketRent * (1 + p / 100) ^ i) :=
  cashflowCell_reversion h

theorem C1_reversion_cell_witness :
    (3 : ℕ) < 10 ∧
    (Date.mk 2020 12 31).toOrdinal < startOfYearOrd (2025 + ((3 : ℕ) : ℤ)) ∧
    cashflowCell ⟨"A", ⟨2019, 1, 1⟩, ⟨2020, 12, 31⟩, 80000, 95000⟩ 5
        (2025 + ((3 : ℕ) : ℤ)) 3 =
      round2 ((95000 : ℚ) * (1 + 5 / 100) ^ (3 : ℕ)) :=
  ⟨by norm_num, by decide,
    C1_reversion_cell ⟨"A", ⟨2019, 1, 1⟩, ⟨2020, 12, 31⟩, 80000, 95000⟩ 5 2025 3
      (by norm_num) (by decide)⟩

/-- C2: for every lease record with `lease_start <= lease_end` that is neither
fully expired nor not-yet-started in the projection year at offset `i`, the
cell is `round(passing_rent * (1 + rate) ** i * (days_covered / days_in_year), 2)`
with `period_start = max(start_of_year, lease_start)`,
`period_end = min(end_of_year, lease_end)`,
`days_covered = period_end - period_start + 1` and
`days_in_year = end_of_year - start_of_year + 1`. -/
theorem C2_interm_cell (rec : LeaseRecord) (p : ℚ) (vy : ℤ) (i : ℕ)
    (hi : i < 10)
    (hls : rec.leaseStart.toOrdinal ≤ rec.leaseEnd.toOrdinal)
    (h1 : ¬ rec.leaseEnd.toOrdinal < startOfYearOrd (vy + (i : ℤ)))
    (h2 : ¬ rec.leaseStart.toOrdinal > endOfYearOrd (vy + (i : ℤ))) :
    cashflowCell rec p (vy + (i : ℤ)) i =
      round2 (rec.passingRent * (1 + p / 100) ^ i *
        (((min (endOfYearOrd (vy + (i : ℤ))) rec.leaseEnd.toOrdinal -
            max (startOfYearOrd (vy + (i : ℤ))) rec.leaseStart.toOrdinal + 1 : ℤ) : ℚ) /
          ((endOfYearOrd (vy + (i : ℤ)) - startOfYearOrd (vy + (i : ℤ)) + 1 : ℤ) : ℚ))) := by
  rw [cashflowCell_interm h1 h2]
  rfl

theorem C2_interm_cell_witness :
    (0 : ℕ) < 10 ∧
    (Date.mk 2024 1 1).toOrdinal ≤ (Date.mk 2025 6 30).toOrdinal ∧
    ¬ (Date.mk 2025 6 30).toOrdinal < startOfYearOrd (2025 + ((0 : ℕ) : ℤ)) ∧
    ¬ (Date.mk 2024 1 1).toOrdinal > endOfYearOrd (2025 + ((0 : ℕ) : ℤ)) ∧
    cashflowCell ⟨"B", ⟨2024, 1, 1⟩, ⟨2025, 6, 30⟩, 100000, 120000⟩ 10
        (2025 + ((0 : ℕ) : ℤ)) 0 =
      round2 ((100000 : ℚ) * (1 + 10 / 100) ^ (0 : ℕ) *
        (((min (endOfYearOrd (2025 + ((0 : ℕ) : ℤ))) (Date.mk 2025 6 30).toOrdinal -
            max (startOfYearOrd (2025 + ((0 : ℕ) : ℤ))) (Date.mk 2024 1 1).toOrdinal + 1 : ℤ) : ℚ) /
          ((endOfYearOrd (2025 + ((0 : ℕ) : ℤ)) - startOfYearOrd (2025 + ((0 : ℕ) : ℤ)) + 1 : ℤ) : ℚ))) :=
  ⟨by norm_num, by decide, by decide, by decide,
    C2_interm_cell ⟨"B", ⟨2024, 1, 1⟩, ⟨2025, 6, 30⟩, 100000, 120000⟩ 10 2025 0
      (by norm_num) (by decide) (by decide) (by decide)⟩

/-- C3: for every lease record and projection year at offset `i` such that the
lease is not fully expired but `lease_start > end_of_year`, the cell is
exactly `0` (the embedding's exact rational zero; in the source it is the
integer literal `0`, appended without rounding and without escalation). -/
theorem C3_preterm_cell (rec : LeaseRecord) (p : ℚ) (vy : ℤ) (i : ℕ)
    (hi : i < 10)
    (h1 : ¬ rec.leaseEnd.toOrdinal < startOfYearOrd (vy + (i : ℤ)))
    (h2 : rec.leaseStart.toOrdinal > endOfYearOrd (vy + (i : ℤ))) :
    cashflowCell rec p (vy + (i : ℤ)) i = 0 :=
  cashflowCell_preterm h1 h2

theorem C3_preterm_cell_witness :
    (0 : ℕ) < 10 ∧
    ¬ (Date.mk 2035 12 31).toOrdinal < startOfYearOrd (2025 + ((0 : ℕ) : ℤ)) ∧
    (Date.mk 2030 1 1).toOrdinal > endOfYearOrd (2025 + ((0 : ℕ) : ℤ)) ∧
    cashflowCell ⟨"C", ⟨2030, 1, 1⟩, ⟨2035, 12, 31⟩, 90000, 95000⟩ 7
        (2025 + ((0 : ℕ) : ℤ)) 0 = 0 :=
  ⟨by norm_num, by decide, by decide,
    C3_preterm_cell ⟨"C", ⟨2030, 1, 1⟩, ⟨2035, 12, 31⟩, 90000, 95000⟩ 7 2025 0
      (by norm_num) (by decide) (by decide)⟩

/-- C7: for every lease record whose lease fully contains the projection year
(`lease_start <= start_of_year` and `lease_end >= end_of_year`), the cell is
`round(passing_rent * (1 + rate) ** i, 2)`: the proration factor is exactly 1. -/
theorem C7_full_year_cell (rec : LeaseRecord) (p : ℚ) (vy : ℤ) (i : ℕ)
    (hi : i < 10)
    (hs : rec.leaseStart.toOrdinal ≤ startOfYearOrd (vy + (i : ℤ)))
    (he : endOfYearOrd (vy + (i : ℤ)) ≤ rec.leaseEnd.toOrdinal) :
    cashflowCell rec p (vy + (i : ℤ)) i =
      round2 (rec.passingRent * (1 + p / 100) ^ i) := by
  have hse := startOfYearOrd_le_endOfYearOrd (vy + (i : ℤ))
  have h1 : ¬ rec.leaseEnd.toOrdinal < startOfYearOrd (vy + (i : ℤ)) := by omega
  have h2 : ¬ rec.leaseStart.toOrdinal > endOfYearOrd (vy + (i : ℤ)) := by omega
  rw [cashflowCell_interm h1 h2]
  have hdy := daysInYear_pos (vy + (i : ℤ))
  have hfrac : covFrac rec (vy + (i : ℤ)) = 1 := by
    unfold covFrac
    rw [min_eq_left he, max_eq_left hs]
    unfold daysInYear at hdy ⊢
    exact div_self (by exact_mod_cast (by omega :
      (endOfYearOrd (vy + (i : ℤ)) - startOfYearOrd (vy + (i : ℤ)) + 1 : ℤ) ≠ 0))
  rw [hfrac, mul_one]

theorem C7_full_year_cell_witness :
    (0 : ℕ) < 10 ∧
    (Date.mk 2023 1 1).toOrdinal ≤ startOfYearOrd (2025 + ((0 : ℕ) : ℤ)) ∧
    endOfYearOrd (2025 + ((0 : ℕ) : ℤ)) ≤ (Date.mk 2027 12 31).toOrdinal ∧
    cashflowCell ⟨"A", ⟨2023, 1, 1⟩, ⟨2027, 12, 31⟩, 100000, 120000⟩ 0
        (2025 + ((0 : ℕ) : ℤ)) 0 =
      round2 ((100000 : ℚ) * (1 + 0 / 100) ^ (0 : ℕ)) :=
  ⟨by norm_num, by decide, by decide,
    C7_full_year_cell ⟨"A", ⟨2023, 1, 1⟩, ⟨2027, 12, 31⟩, 100000, 120000⟩ 0 2025 0
      (by norm_num) (by decide) (by decide)⟩

set_option maxHeartbeats 1000000 in
/-- C9: Scenario B — a lease active since before 2025 (`lease_start` on or
before 2025-01-01) ending 2025-06-30, passing rent 100000, valuation year 2025,
escalation 10%: the 2025 cell (offset 0) is
`round(100000 * 1.10 ** 0 * (181 / 365), 2)`, with 181 inclusive days from
Jan 1 to Jun 30 of the non-leap year 2025. -/
theorem C9_scenario_B_cell (t : String) (ls : Date) (m : ℚ)
    (h : ls.toOrdinal ≤ (Date.mk 2025 1 1).toOrdinal) :
    cashflowCell ⟨t, ls, ⟨2025, 6, 30⟩, 100000, m⟩ 10 2025 0 =
      round2 ((100000 : ℚ) * (1 + 10 / 100) ^ (0 : ℕ) * ((181 : ℚ) / 365)) := by
  have hls : ls.toOrdinal ≤ startOfYearOrd 2025 := h
  have hse := startOfYearOrd_le_endOfYearOrd (2025 : ℤ)
  have h1 : ¬ (Date.mk 2025 6 30).toOrdinal < startOfYearOrd (2025 : ℤ) := by decide
  have h2 : ¬ ls.toOrdinal > endOfYearOrd (2025 : ℤ) := by omega
  have hcf : covFrac ⟨t, ls, ⟨2025, 6, 30⟩, 100000, m⟩ 2025 = (181 : ℚ) / 365 := by
    simp only [covFrac]
    rw [max_eq_left hls,
      min_eq_right (by decide : (Date.mk 2025 6 30).toOrdinal ≤ endOfYearOrd (2025 : ℤ))]
    norm_num [startOfYearOrd, endOfYearOrd, daysInYear, Date.toOrdinal, Date.dayOfYear,
      monthOffset, leapsBefore, isLeap]
  rw [cashflowCell_interm h1 h2, hcf]

theorem C9_scenario_B_cell_witness :
    (Date.mk 2024 1 1).toOrdinal ≤ (Date.mk 2025 1 1).toOrdinal ∧
    cashflowCell ⟨"B", ⟨2024, 1, 1⟩, ⟨2025, 6, 30⟩, 100000, 120000⟩ 10 2025 0 =
      round2 ((100000 : ℚ) * (1 + 10 / 100) ^ (0 : ℕ) * ((181 : ℚ) / 365)) :=
  ⟨by decide, C9_scenario_B_cell "B" ⟨2024, 1, 1⟩ 120000 (by decide)⟩

/-- C10: whenever the in-term branch is taken for a record with
`lease_start <= lease_end`, the overlap window is non-empty
(`period_start <= period_end`), `1 <= days_covered <= days_in_year`, the
proration fraction lies in `(0, 1]`, and the divisor `days_in_year` is 365 or
366, never zero. -/
theorem C10_interm_safety (rec : LeaseRecord) (year : ℤ)
    (hls : rec.leaseStart.toOrdinal ≤ rec.leaseEnd.toOrdinal)
    (h1 : ¬ rec.leaseEnd.toOrdinal < startOfYearOrd year)
    (h2 : ¬ rec.leaseStart.toOrdinal > endOfYearOrd year) :
    max (startOfYearOrd year) rec.leaseStart.toOrdinal ≤
      min (endOfYearOrd year) rec.leaseEnd.toOrdinal ∧
    1 ≤ min (endOfYearOrd year) rec.leaseEnd.toOrdinal -
        max (startOfYearOrd year) rec.leaseStart.toOrdinal + 1 ∧
    min (endOfYearOrd year) rec.leaseEnd.toOrdinal -
        max (startOfYearOrd year) rec.leaseStart.toOrdinal + 1 ≤ daysInYear year ∧
    0 < covFrac rec year ∧
    covFrac rec year ≤ 1 ∧
    daysInYear year ≠ 0 ∧
    (daysInYear year = 365 ∨ daysInYear year = 366) := by
  have hd := interm_daysCovered_bounds hls h1 h2
  have hp := daysInYear_pos year
  have hy := daysInYear_eq year
  refine ⟨by omega, hd.1, hd.2, interm_covFrac_pos hls h1 h2,
    interm_covFrac_le_one hls h1 h2, by omega, ?_⟩
  rw [hy]
  by_cases hL : isLeap year <;> simp [hL]

theorem C10_interm_safety_witness :
    (Date.mk 2024 1 1).toOrdinal ≤ (Date.mk 2025 6 30).toOrdinal ∧
    ¬ (Date.mk 2025 6 30).toOrdinal < startOfYearOrd (2025 : ℤ) ∧
    ¬ (Date.mk 2024 1 1).toOrdinal > endOfYearOrd (2025 : ℤ) ∧
    (max (startOfYearOrd (2025 : ℤ)) (Date.mk 2024 1 1).toOrdinal ≤
      min (endOfYearOrd (2025 : ℤ)) (Date.mk 2025 6 30).toOrdinal ∧
    1 ≤ min (endOfYearOrd (2025 : ℤ)) (Date.mk 2025 6 30).toOrdinal -
        max (startOfYearOrd (2025 : ℤ)) (Date.mk 2024 1 1).toOrdinal + 1 ∧
    min (endOfYearOrd (2025 : ℤ)) (Date.mk 2025 6 30).toOrdinal -
        max (startOfYearOrd (2025 : ℤ)) (Date.mk 2024 1 1).toOrdinal + 1 ≤
      daysInYear (2025 : ℤ) ∧
    0 < covFrac ⟨"B", ⟨2024, 1, 1⟩, ⟨2025, 6, 30⟩, 100000, 120000⟩ 2025 ∧
    covFrac ⟨"B", ⟨2024, 1, 1⟩, ⟨2025, 6, 30⟩, 100000, 120000⟩ 2025 ≤ 1 ∧
    daysInYear (2025 : ℤ) ≠ 0 ∧
    (daysInYear (2025 : ℤ) = 365 ∨ daysInYear (2025 : ℤ) = 366)) :=
  ⟨by decide, by decide, by decide,
    C10_interm_safety ⟨"B", ⟨2024, 1, 1⟩, ⟨2025, 6, 30⟩, 100000, 120000⟩ 2025
      (by decide) (by decide) (by decide)⟩

/-- C6 (counterexample): with zero escalation, a lease record satisfying
`lease_start <= lease_end` whose lease ends mid-way through the second of two
consecutive in-term projection years gives `cell(i+1) < cell(i)` even though
the classification regime is unchanged — the claim as stated is false. -/
theorem C6_counterexample :
    (Date.mk 2020 1 1).toOrdinal ≤ (Date.mk 2026 6 30).toOrdinal ∧
    regime (⟨"M", ⟨2020, 1, 1⟩, ⟨2026, 6, 30⟩, 100000, 120000⟩ : LeaseRecord)
        (2025 + ((0 : ℕ) : ℤ)) = Regime.interm ∧
    regime (⟨"M", ⟨2020, 1, 1⟩, ⟨2026, 6, 30⟩, 100000, 120000⟩ : LeaseRecord)
        (2025 + ((0 : ℕ) : ℤ)) =
      regime (⟨"M", ⟨2020, 1, 1⟩, ⟨2026, 6, 30⟩, 100000, 120000⟩ : LeaseRecord)
        (2025 + ((0 : ℕ) : ℤ) + 1) ∧
    cashflowCell ⟨"M", ⟨2020, 1, 1⟩, ⟨2026, 6, 30⟩, 100000, 120000⟩ 0
        (2025 + ((0 : ℕ) : ℤ) + 1) (0 + 1) <
      cashflowCell ⟨"M", ⟨2020, 1, 1⟩, ⟨2026, 6, 30⟩, 100000, 120000⟩ 0
        (2025 + ((0 : ℕ) : ℤ)) 0 := by
  refine ⟨by decide, by decide, by decide, ?_⟩
  norm_num [cashflowCell, round2, round_eq, covFrac, daysInYear, startOfYearOrd,
    endOfYearOrd, Date.toOrdinal, Date.dayOfYear, monthOffset, leapsBefore, isLeap]

/-- C6 (amended): for a record with non-negative rents,
`lease_start <= lease_end`, escalation `r >= 0`, and two consecutive offsets
`i`, `i+1` under the same classification regime, `cell(i+1) >= cell(i)` holds
provided additionally that, when the shared regime is in-term, the coverage
fraction `days_covered / days_in_year` does not decrease from year `i` to year
`i+1` (the counterexample forces this extra proviso: proration can shrink an
in-term cell even at constant regime). -/
theorem C6_monotone_amended (rec : LeaseRecord) (p : ℚ) (vy : ℤ) (i : ℕ)
    (hp : 0 ≤ p) (hpass : 0 ≤ rec.passingRent) (hmkt : 0 ≤ rec.marketRent)
    (hls : rec.leaseStart.toOrdinal ≤ rec.leaseEnd.toOrdinal)
    (hreg : regime rec (vy + (i : ℤ)) = regime rec (vy + (i : ℤ) + 1))
    (hfrac : regime rec (vy + (i : ℤ)) = Regime.interm →
      covFrac rec (vy + (i : ℤ)) ≤ covFrac rec (vy + (i : ℤ) + 1)) :
    cashflowCell rec p (vy + (i : ℤ)) i ≤ cashflowCell rec p (vy + (i : ℤ) + 1) (i + 1) := by
  have he : (1 : ℚ) ≤ 1 + p / 100 := by linarith
  have hpow : (1 + p / 100) ^ i ≤ (1 + p / 100) ^ (i + 1) :=
    pow_le_pow_right₀ he (Nat.le_succ i)
  cases hr : regime rec (vy + (i : ℤ)) with
  | reversion =>
    have hr2 : regime rec (vy + (i : ℤ) + 1) = Regime.reversion := by
      rw [← hreg]; exact hr
    rw [cashflowCell_reversion (regime_reversion_iff.mp hr),
      cashflowCell_reversion (regime_reversion_iff.mp hr2)]
    exact round2_mono (mul_le_mul_of_nonneg_left hpow hmkt)
  | preterm =>
    have hr2 : regime rec (vy + (i : ℤ) + 1) = Regime.preterm := by
      rw [← hreg]; exact hr
    obtain ⟨h1, h2⟩ := regime_preterm_iff.mp hr
    obtain ⟨h1b, h2b⟩ := regime_preterm_iff.mp hr2
    rw [cashflowCell_preterm h1 h2, cashflowCell_preterm h1b h2b]
  | interm =>
    have hr2 : regime rec (vy + (i : ℤ) + 1) = Regime.interm := by
      rw [← hreg]; exact hr
    obtain ⟨h1, h2⟩ := regime_interm_iff.mp hr
    obtain ⟨h1b, h2b⟩ := regime_interm_iff.mp hr2
    rw [cashflowCell_interm h1 h2, cashflowCell_interm h1b h2b]
    apply round2_mono
    have hf1 : 0 < covFrac rec (vy + (i : ℤ)) := interm_covFrac_pos hls h1 h2
    have hff := hfrac hr
    exact mul_le_mul (mul_le_mul_of_nonneg_left hpow hpass) hff hf1.le
      (mul_nonneg hpass (by positivity))

theorem C6_monotone_amended_witness :
    (0 : ℚ) ≤ 5 ∧
    (0 : ℚ) ≤ 100000 ∧
    (0 : ℚ) ≤ 120000 ∧
    (Date.mk 2020 1 1).toOrdinal ≤ (Date.mk 2040 12 31).toOrdinal ∧
    regime (⟨"W", ⟨2020, 1, 1⟩, ⟨2040, 12, 31⟩, 100000, 120000⟩ : LeaseRecord)
        (2025 + ((0 : ℕ) : ℤ)) =
      regime (⟨"W", ⟨2020, 1, 1⟩, ⟨2040, 12, 31⟩, 100000, 120000⟩ : LeaseRecord)
        (2025 + ((0 : ℕ) : ℤ) + 1) ∧
    (regime (⟨"W", ⟨2020, 1, 1⟩, ⟨2040, 12, 31⟩, 100000, 120000⟩ : LeaseRecord)
        (2025 + ((0 : ℕ) : ℤ)) = Regime.interm →
      covFrac ⟨"W", ⟨2020, 1, 1⟩, ⟨2040, 12, 31⟩, 100000, 120000⟩
          (2025 + ((0 : ℕ) : ℤ)) ≤
        covFrac ⟨"W", ⟨2020, 1, 1⟩, ⟨2040, 12, 31⟩, 100000, 120000⟩
          (2025 + ((0 : ℕ) : ℤ) + 1)) ∧
    cashflowCell ⟨"W", ⟨2020, 1, 1⟩, ⟨2040, 12, 31⟩, 100000, 120000⟩ 5
        (2025 + ((0 : ℕ) : ℤ)) 0 ≤
      cashflowCell ⟨"W", ⟨2020, 1, 1⟩, ⟨2040, 12, 31⟩, 100000, 120000⟩ 5
        (2025 + ((0 : ℕ) : ℤ) + 1) (0 + 1) :=
  ⟨by norm_num, by norm_num, by norm_num, by decide, by decide,
    by
      intro hI
      norm_num [covFrac, daysInYear, startOfYearOrd, endOfYearOrd, Date.toOrdinal,
        Date.dayOfYear, monthOffset, leapsBefore, isLeap],
    C6_monotone_amended ⟨"W", ⟨2020, 1, 1⟩, ⟨2040, 12, 31⟩, 100000, 120000⟩ 5 2025 0
      (by norm_num) (by norm_num) (by norm_num) (by decide) (by decide)
      (by
        intro hI
        norm_num [covFrac, daysInYear, startOfYearOrd, endOfYearOrd, Date.toOrdinal,
          Date.dayOfYear, monthOffset, leapsBefore, isLeap])⟩

/-- C8 (counterexample): for Scenario D (fully expired lease, market rent
95000, escalation 5%), the offset-3 cell computed by the code is
109974.38, not the 109973.44 the claim states: `95000 * 1.05 ** 3` is
109974.375, not 109973.4375. -/
theorem C8_counterexample :
    (Date.mk 2020 12 31).toOrdinal < startOfYearOrd (2025 : ℤ) ∧
    cashflowCell ⟨"D", ⟨2019, 1, 1⟩, ⟨2020, 12, 31⟩, 80000, 95000⟩ 5 (2025 + 3) 3 =
      (10997438 : ℚ) / 100 ∧
    cashflowCell ⟨"D", ⟨2019, 1, 1⟩, ⟨2020, 12, 31⟩, 80000, 95000⟩ 5 (2025 + 3) 3 ≠
      (10997344 : ℚ) / 100 := by
  have hv : cashflowCell ⟨"D", ⟨2019, 1, 1⟩, ⟨2020, 12, 31⟩, 80000, 95000⟩ 5
      (2025 + 3) 3 = (10997438 : ℚ) / 100 := by
    norm_num [cashflowCell, round2, round_eq, covFrac, daysInYear, startOfYearOrd,
      endOfYearOrd, Date.toOrdinal, Date.dayOfYear, monthOffset, leapsBefore, isLeap]
  exact ⟨by decide, hv, by rw [hv]; norm_num⟩

/-- C8 (amended): for every lease record fully expired before the horizon
starts, with market rent 95000 and escalation 5%, the offset-3 cell equals
`round(95000 * 1.05 ** 3, 2) = round(109974.375, 2) = 109974.38` (the claim's
intermediate value 109973.4375 and result 109973.44 were arithmetic slips). -/
theorem C8_scenario_D_amended (rec : LeaseRecord) (vy : ℤ)
    (hm : rec.marketRent = 95000)
    (h : rec.leaseEnd.toOrdinal < startOfYearOrd vy) :
    cashflowCell rec 5 (vy + 3) 3 = round2 ((95000 : ℚ) * (1 + 5 / 100) ^ (3 : ℕ)) ∧
    round2 ((95000 : ℚ) * (1 + 5 / 100) ^ (3 : ℕ)) = (10997438 : ℚ) / 100 := by
  have hmono : startOfYearOrd vy ≤ startOfYearOrd (vy + 3) :=
    startOfYearOrd_mono (by omega)
  have h3 : rec.leaseEnd.toOrdinal < startOfYearOrd (vy + 3) := by omega
  constructor
  · rw [cashflowCell_reversion h3, hm]
  · norm_num [round2, round_eq]

theorem C8_scenario_D_amended_witness :
    ((⟨"D", ⟨2019, 1, 1⟩, ⟨2020, 12, 31⟩, 80000, 95000⟩ : LeaseRecord).marketRent
      = 95000) ∧
    (Date.mk 2020 12 31).toOrdinal < startOfYearOrd (2025 : ℤ) ∧
    (cashflowCell ⟨"D", ⟨2019, 1, 1⟩, ⟨2020, 12, 31⟩, 80000, 95000⟩ 5 (2025 + 3) 3 =
        round2 ((95000 : ℚ) * (1 + 5 / 100) ^ (3 : ℕ)) ∧
      round2 ((95000 : ℚ) * (1 + 5 / 100) ^ (3 : ℕ)) = (10997438 : ℚ) / 100) :=
  ⟨rfl, by decide,
    C8_scenario_D_amended ⟨"D", ⟨2019, 1, 1⟩, ⟨2020, 12, 31⟩, 80000, 95000⟩ 2025
      rfl (by decide)⟩

end TermReversion
